import Mathlib

/-!
Verification development for the isveren.az CV scraper
(`src/isveren_scraper.py`).

The source manipulates deserialized JSON (Python dicts, lists, strings,
ints, bools, None).  We embed those values as the inductive type `JVal`,
with Python truthiness (`truthy`), Python equality restricted to the
shapes the source actually compares (`pyEq`), Python `str()` / `repr()`
(`pyStr` / `pyRepr`), dictionary access (`pyGetD` for `d.get(k, default)`,
which raises `AttributeError` on a non-dict receiver), iteration
(`pyIter`), and string concatenation / `str.join` (`pyAddStr`, `pyJoin`),
each raising the exception the Python operation raises.  Fallible code is
embedded in `Except PyExc`.

JSON numbers are modelled as integers (`Int`): the source and its API use
only integer-valued numeric fields, so the fractional/exponent syntax of
JSON is treated as unparsable by the modelled `loads` (noted at its
definition), and `float` values do not occur.
-/

/-- Embedded Python/JSON value: None, bool, int, str, list, dict. -/
inductive JVal where
  | null : JVal
  | bool : Bool → JVal
  | num : Int → JVal
  | str : String → JVal
  | arr : List JVal → JVal
  | obj : List (String × JVal) → JVal

/-- Embedded Python exception kinds raised by the modelled operations. -/
inductive PyExc where
  | attributeError : PyExc
  | typeError : PyExc
  | keyError : PyExc
  | jsonDecodeError : PyExc
  deriving DecidableEq

/-- Python truthiness of a value (`bool(v)`). -/
def truthy : JVal → Bool
  | .null => false
  | .bool b => b
  | .num n => n != 0
  | .str s => s != ""
  | .arr xs => !xs.isEmpty
  | .obj kvs => !kvs.isEmpty

/-- First binding of a key in a dict (JSON-decoded dicts have unique keys). -/
def lookupKey : List (String × JVal) → String → Option JVal
  | [], _ => none
  | (k, v) :: rest, key => if k = key then some v else lookupKey rest key

/-- Python `d.get(k, default)` on a value known to be a dict. -/
def dictGet (kvs : List (String × JVal)) (k : String) (d : JVal) : JVal :=
  (lookupKey kvs k).getD d

/-- Python `v.get(k, default)`: succeeds on a dict, raises `AttributeError`
on any non-dict receiver (None, int, str, list, bool). -/
def pyGetD : JVal → String → JVal → Except PyExc JVal
  | .obj kvs, k, d => .ok (dictGet kvs k d)
  | _, _, _ => .error .attributeError

mutual
/-- Python `==`.  Numeric values compare numerically (a bool counts as
0/1); other comparisons are structural; values of different non-numeric
kinds are unequal.  The source only ever compares against int and string
literals, so the list/dict arms are never exercised by it; they are
modelled as ordered structural equality. -/
def pyEq : JVal → JVal → Bool
  | .null, .null => true
  | .bool a, .bool b => a == b
  | .bool a, .num m => (if a then (1 : Int) else 0) == m
  | .num n, .bool b => n == (if b then (1 : Int) else 0)
  | .num n, .num m => n == m
  | .str s, .str t => s == t
  | .arr xs, .arr ys => pyEqL xs ys
  | .obj xs, .obj ys => pyEqO xs ys
  | _, _ => false

/-- Elementwise Python equality of two lists. -/
def pyEqL : List JVal → List JVal → Bool
  | [], [] => true
  | x :: xs, y :: ys => pyEq x y && pyEqL xs ys
  | _, _ => false

/-- Pairwise Python equality of two dicts (ordered approximation). -/
def pyEqO : List (String × JVal) → List (String × JVal) → Bool
  | [], [] => true
  | (k1, v1) :: xs, (k2, v2) :: ys => k1 == k2 && pyEq v1 v2 && pyEqO xs ys
  | _, _ => false
end

mutual
/-- Python `repr(v)` (used by `str()` on containers). String escaping
inside reprs is not modelled beyond quoting. -/
def pyRepr : JVal → String
  | .null => "None"
  | .bool true => "True"
  | .bool false => "False"
  | .num n => toString n
  | .str s => "\x27" ++ s ++ "\x27"
  | .arr xs => "[" ++ pyReprL xs ++ "]"
  | .obj kvs => "\x7b" ++ pyReprO kvs ++ "\x7d"

/-- Comma-joined reprs of list elements. -/
def pyReprL : List JVal → String
  | [] => ""
  | [x] => pyRepr x
  | x :: xs => pyRepr x ++ ", " ++ pyReprL xs

/-- Comma-joined reprs of dict entries. -/
def pyReprO : List (String × JVal) → String
  | [] => ""
  | [(k, v)] => "\x27" ++ k ++ "\x27: " ++ pyRepr v
  | (k, v) :: kvs => "\x27" ++ k ++ "\x27: " ++ pyRepr v ++ ", " ++ pyReprO kvs
end

/-- Python `str(v)`: a string is itself, other values use their repr. -/
def pyStr : JVal → String
  | .str s => s
  | v => pyRepr v

/-- Python iteration (`for x in v`): lists yield elements, strings yield
one-character strings, dicts yield their keys; other values raise
`TypeError`. -/
def pyIter : JVal → Except PyExc (List JVal)
  | .arr xs => .ok xs
  | .str s => .ok (s.toList.map fun c => .str (String.mk [c]))
  | .obj kvs => .ok (kvs.map fun kv => .str kv.1)
  | _ => .error .typeError

/-- Python `sep.join(items)`: raises `TypeError` unless every item is a
string. -/
def pyJoin (sep : String) (items : List JVal) : Except PyExc String :=
  if items.all fun v => match v with | .str _ => true | _ => false then
    .ok (String.intercalate sep (items.map pyStr))
  else .error .typeError

/-- Python `v += s` for a string `s`: string concatenation on a string,
extension by the characters of `s` on a list, `TypeError` otherwise. -/
def pyAddStr (v : JVal) (s : String) : Except PyExc JVal :=
  match v with
  | .str t => .ok (.str (t ++ s))
  | .arr xs => .ok (.arr (xs ++ s.toList.map fun c => .str (String.mk [c])))
  | _ => .error .typeError

/-- Python `a >= b` where `a` is an int: numeric comparison against ints
and bools, lexicographic against nothing here; any other right operand
raises `TypeError`. -/
def pyGEInt (a : Int) : JVal → Except PyExc Bool
  | .num m => .ok (decide (a ≥ m))
  | .bool b => .ok (decide (a ≥ if b then (1 : Int) else 0))
  | _ => .error .typeError

/-- Substring occurrence test on character lists. -/
def charsContain (needle : List Char) : List Char → Bool
  | [] => needle.isEmpty
  | c :: cs => needle.isPrefixOf (c :: cs) || charsContain needle cs

/-- Python `k in v` for a string `k`: key membership in a dict, element
membership in a list, substring test in a string; other receivers raise
`TypeError`. -/
def pyIn (k : String) : JVal → Except PyExc Bool
  | .obj kvs => .ok (lookupKey kvs k).isSome
  | .arr xs => .ok (xs.any fun x => pyEq x (.str k))
  | .str s => .ok (charsContain k.toList s.toList)
  | _ => .error .typeError

/-- Python `v[k]` for a string key `k`: dict indexing (KeyError when
absent); any non-dict receiver raises `TypeError` for a string key. -/
def pyIndex : JVal → String → Except PyExc JVal
  | .obj kvs, k => match lookupKey kvs k with
    | some v => .ok v
    | none => .error .keyError
  | _, _ => .error .typeError

/-! ## A JSON decoder modelling `json.loads`

Fuel-based recursive-descent parser over the character list of the input.
Modelled restrictions (each makes some inputs unparsable that CPython
accepts, none of which occur in this data set): numbers must be integers
(a fractional part or exponent is rejected), the literals `NaN` and
`Infinity` are rejected, and surrogate-pair `\uXXXX` escapes decode
codepoint by codepoint. -/

/-- JSON whitespace. -/
def isWsChar (c : Char) : Bool := c = ' ' || c = '\t' || c = '\n' || c = '\r'

/-- Drop leading JSON whitespace. -/
def skipWs : List Char → List Char
  | [] => []
  | c :: cs => if isWsChar c then skipWs cs else c :: cs

/-- Value of a hexadecimal digit. -/
def hexVal (c : Char) : Option Nat :=
  if c.isDigit then some (c.toNat - 48)
  else if 'a' ≤ c && c ≤ 'f' then some (c.toNat - 87)
  else if 'A' ≤ c && c ≤ 'F' then some (c.toNat - 55)
  else none

/-- Single-character JSON string escapes. -/
def escChar : Char → Option Char
  | '"' => some '"'
  | '\\' => some '\\'
  | '/' => some '/'
  | 'b' => some (Char.ofNat 8)
  | 'f' => some (Char.ofNat 12)
  | 'n' => some '\n'
  | 'r' => some '\r'
  | 't' => some '\t'
  | _ => none

/-- Body of a JSON string after the opening quote: returns the decoded
characters and the remainder after the closing quote. -/
def strBody : Nat → List Char → Option (List Char × List Char)
  | 0, _ => none
  | _ + 1, [] => none
  | fuel + 1, c :: cs =>
    if c = '"' then some ([], cs)
    else if c = '\\' then
      match cs with
      | 'u' :: h1 :: h2 :: h3 :: h4 :: rest => do
        let a ← hexVal h1
        let b ← hexVal h2
        let c2 ← hexVal h3
        let d ← hexVal h4
        let (acc, r) ← strBody fuel rest
        some (Char.ofNat (((a * 16 + b) * 16 + c2) * 16 + d) :: acc, r)
      | e :: rest => do
        let ec ← escChar e
        let (acc, r) ← strBody fuel rest
        some (ec :: acc, r)
      | [] => none
    else do
      let (acc, r) ← strBody fuel cs
      some (c :: acc, r)

/-- Longest prefix of decimal digits, with the remainder. -/
def digitSpan : List Char → (List Char × List Char)
  | [] => ([], [])
  | c :: cs =>
    if c.isDigit then
      let (d, r) := digitSpan cs
      (c :: d, r)
    else ([], c :: cs)

/-- Numeric value of a digit string. -/
def digitsVal (ds : List Char) : Nat :=
  ds.foldl (fun a c => a * 10 + (c.toNat - 48)) 0

/-- Continuation characters that would make a number non-integral. -/
def floatish : List Char → Bool
  | c :: _ => c = '.' || c = 'e' || c = 'E'
  | [] => false

mutual
/-- Parse one JSON value; returns it with the unconsumed remainder. -/
def parseVal : Nat → List Char → Option (JVal × List Char)
  | 0, _ => none
  | fuel + 1, cs =>
    match skipWs cs with
    | 'n' :: 'u' :: 'l' :: 'l' :: rest => some (.null, rest)
    | 't' :: 'r' :: 'u' :: 'e' :: rest => some (.bool true, rest)
    | 'f' :: 'a' :: 'l' :: 's' :: 'e' :: rest => some (.bool false, rest)
    | '"' :: rest => do
      let (body, r) ← strBody (rest.length + 1) rest
      some (.str (String.mk body), r)
    | '[' :: rest => do
      let (xs, r) ← parseItems fuel rest
      some (.arr xs, r)
    | '\x7b' :: rest => do
      let (kvs, r) ← parseEntries fuel rest
      some (.obj kvs, r)
    | '-' :: rest =>
      match digitSpan rest with
      | ([], _) => none
      | (ds, r) => if floatish r then none else some (.num (-(digitsVal ds : Int)), r)
    | c :: rest =>
      if c.isDigit then
        match digitSpan (c :: rest) with
        | (ds, r) => if floatish r then none else some (.num (digitsVal ds : Int), r)
      else none
    | [] => none

/-- Parse the items of a JSON array after the opening bracket. -/
def parseItems : Nat → List Char → Option (List JVal × List Char)
  | 0, _ => none
  | fuel + 1, cs =>
    match skipWs cs with
    | ']' :: rest => some ([], rest)
    | cs2 => parseItemsRest fuel cs2

/-- Parse one or more comma-separated array items up to the closing
bracket. -/
def parseItemsRest : Nat → List Char → Option (List JVal × List Char)
  | 0, _ => none
  | fuel + 1, cs => do
    let (v, r) ← parseVal fuel cs
    match skipWs r with
    | ']' :: rest => some ([v], rest)
    | ',' :: rest => do
      let (vs, r2) ← parseItemsRest fuel rest
      some (v :: vs, r2)
    | _ => none

/-- Parse the entries of a JSON object after the opening brace. -/
def parseEntries : Nat → List Char → Option (List (String × JVal) × List Char)
  | 0, _ => none
  | fuel + 1, cs =>
    match skipWs cs with
    | '\x7d' :: rest => some ([], rest)
    | cs2 => parseEntriesRest fuel cs2

/-- Parse one or more comma-separated object entries up to the closing
brace. -/
def parseEntriesRest : Nat → List Char → Option (List (String × JVal) × List Char)
  | 0, _ => none
  | fuel + 1, cs =>
    match skipWs cs with
    | '"' :: rest => do
      let (key, r) ← strBody (rest.length + 1) rest
      match skipWs r with
      | ':' :: r2 => do
        let (v, r3) ← parseVal fuel r2
        match skipWs r3 with
        | '\x7d' :: rest2 => some ([(String.mk key, v)], rest2)
        | ',' :: rest2 => do
          let (kvs, r4) ← parseEntriesRest fuel rest2
          some ((String.mk key, v) :: kvs, r4)
        | _ => none
      | _ => none
    | _ => none
end

/-- Python `json.loads` on a string: one JSON document, optionally
surrounded by whitespace; anything else raises `JSONDecodeError`. -/
def loads (s : String) : Except PyExc JVal :=
  match parseVal (2 * s.length + 8) s.toList with
  | some (v, rest) => if (skipWs rest).isEmpty then .ok v else .error .jsonDecodeError
  | none => .error .jsonDecodeError

/-! ## The normalizer helpers of `IsverenScraper` -/

/-- Embedding of `parse_json_field`: returns `[]` for a falsy value or
the literal string `"[]"`; otherwise `json.loads` of the value, with a
`JSONDecodeError` (malformed string) or `TypeError` (non-string value)
caught and replaced by `[]`.  Total because the source catches both
exceptions `json.loads` can raise here. -/
def parse_json_field (field_value : JVal) : JVal :=
  if truthy field_value = false || pyEq field_value (.str "[]") then .arr []
  else
    match field_value with
    | .str s =>
      match loads s with
      | .ok j => j
      | .error _ => .arr []
    | _ => .arr []

/-- Embedding of `get_marital_status`: the `status_map.get(status,
"Unknown")` dictionary lookup, whose int keys match by Python equality. -/
def get_marital_status (status : JVal) : String :=
  if pyEq status (.num 1) then "Single"
  else if pyEq status (.num 2) then "Married - No children"
  else if pyEq status (.num 3) then "Married - Has children"
  else "Unknown"

/-- Embedding of the inline gender conditional of `process_cv_data`:
`"Male" if v == 1 else "Female" if v == 2 else "Unknown"`. -/
def genderOf (v : JVal) : String :=
  if pyEq v (.num 1) then "Male"
  else if pyEq v (.num 2) then "Female"
  else "Unknown"

/-- Embedding of the inline has-children conditional of
`process_cv_data`: `"Yes" if v == 1 else "No" if v == 2 else "Unknown"`. -/
def hasChildrenOf (v : JVal) : String :=
  if pyEq v (.num 1) then "Yes"
  else if pyEq v (.num 2) then "No"
  else "Unknown"

/-- Embedding of `format_list_field`: empty string for a falsy value,
comma-joined `str()` of the truthy elements of a list, `str()` of any
other value. -/
def format_list_field (items : JVal) : String :=
  if truthy items = false then ""
  else
    match items with
    | .arr xs => String.intercalate ", " ((xs.filter truthy).map pyStr)
    | v => pyStr v

/-- Embedding of `format_languages`: iterates the value (raising
`TypeError` on a non-iterable), keeps dict entries with a truthy name,
rendering `"name (level)"` when the level is truthy and otherwise
appending the raw name value, then joins with `", "` (which raises if a
raw non-string name was appended). -/
def format_languages (languages : JVal) : Except PyExc String :=
  if truthy languages = false then .ok ""
  else do
    let items ← pyIter languages
    let formatted := items.foldl (fun acc lang =>
      match lang with
      | .obj kvs =>
        let name := dictGet kvs "name" (.str "")
        let level := dictGet kvs "currentlyWorked" (.str "")
        if truthy name then
          acc ++ [if truthy level then
                    JVal.str (pyStr name ++ " (" ++ pyStr level ++ ")")
                  else name]
        else acc
      | _ => acc) []
    pyJoin ", " formatted

/-- Embedding of the body of the `format_experience` loop for one entry:
`none` for a skipped entry (non-dict, or falsy rendered value), `some`
of the rendered value otherwise; the `+=` of the date suffix raises
`TypeError` when the base value is neither a string nor a list. -/
def format_experience_entry (exp : JVal) : Except PyExc (Option JVal) :=
  match exp with
  | .obj kvs =>
    let company := dictGet kvs "company" (.str "")
    let position := dictGet kvs "position" (.str "")
    let start_date := dictGet kvs "skill_start_date" (.str "")
    let end_date := dictGet kvs "skill_end_date" (.str "")
    let currently_working := dictGet kvs "currentlyWorked" (.str "0")
    let exp0 : JVal :=
      if truthy company && truthy position then
        .str (pyStr position ++ " at " ++ pyStr company)
      else if truthy company then company else position
    match (if truthy start_date then
             if pyEq currently_working (.str "1") || truthy end_date = false then
               pyAddStr exp0 (" (" ++ pyStr start_date ++ " - Present)")
             else
               pyAddStr exp0 (" (" ++ pyStr start_date ++ " - " ++ pyStr end_date ++ ")")
           else .ok exp0) with
    | .error e => .error e
    | .ok expS => .ok (if truthy expS then some expS else none)
  | _ => .ok none

/-- The accumulation loop shared by `format_experience` and
`format_education`: render entries in order, appending each kept
rendering, propagating the first exception raised. -/
def formatLoop (fmt : JVal → Except PyExc (Option JVal)) :
    List JVal → List JVal → Except PyExc (List JVal)
  | [], acc => .ok acc
  | e :: es, acc =>
    match fmt e with
    | .error ex => .error ex
    | .ok r => formatLoop fmt es (acc ++ r.toList)

/-- Embedding of `format_experience`: empty string for a falsy value,
otherwise the per-entry renderings joined with `" | "`. -/
def format_experience (experiences : JVal) : Except PyExc String :=
  if truthy experiences = false then .ok ""
  else do
    let items ← pyIter experiences
    let formatted ← formatLoop format_experience_entry items []
    pyJoin " | " formatted

/-- Embedding of the body of the `format_education` loop for one entry;
the unused `level` binding of the source is dropped. -/
def format_education_entry (edu : JVal) : Except PyExc (Option JVal) :=
  match edu with
  | .obj kvs =>
    let name := dictGet kvs "name" (.str "")
    let specialization := dictGet kvs "specialization" (.str "")
    let start_date := dictGet kvs "education_start_date" (.str "")
    let end_date := dictGet kvs "education_end_date" (.str "")
    let currently_studying := dictGet kvs "currentlyStudying" (.str "0")
    match (if truthy specialization then
             pyAddStr name (" - " ++ pyStr specialization)
           else .ok name) with
    | .error e => .error e
    | .ok edu1 =>
      match (if truthy start_date then
               if pyEq currently_studying (.str "1") || truthy end_date = false then
                 pyAddStr edu1 (" (" ++ pyStr start_date ++ " - Present)")
               else
                 pyAddStr edu1 (" (" ++ pyStr start_date ++ " - " ++ pyStr end_date ++ ")")
             else .ok edu1) with
      | .error e => .error e
      | .ok eduS => .ok (if truthy eduS then some eduS else none)
  | _ => .ok none

/-- Embedding of `format_education`: empty string for a falsy value,
otherwise the per-entry renderings joined with `" | "`. -/
def format_education (educations : JVal) : Except PyExc String :=
  if truthy educations = false then .ok ""
  else do
    let items ← pyIter educations
    let formatted ← formatLoop format_education_entry items []
    pyJoin " | " formatted

/-- Embedding of the locale-object expression used for the `city` and
`working_hour` fields: `m.get("name", \x7b\x7d).get("az", "") if
isinstance(m.get("name"), dict) else m.get("name", "")`; raises
`AttributeError` when `m` is not a dict. -/
def localeName (m : JVal) : Except PyExc JVal :=
  match pyGetD m "name" .null with
  | .error e => .error e
  | .ok cn =>
    match cn with
    | .obj _ =>
      match pyGetD m "name" (.obj []) with
      | .error e => .error e
      | .ok cn2 => pyGetD cn2 "az" (.str "")
    | _ => pyGetD m "name" (.str "")

/-! ## The flattened record and `process_cv_data` -/

/-- One flattened CV row, with one field per key of the record literal of
`process_cv_data`, in source order.  Fields whose value is always a
Python string are typed `String`; the rest hold arbitrary values. -/
structure Flat where
  id : JVal
  title : JVal
  slug : JVal
  name : JVal
  surname : JVal
  birthday : JVal
  gender : String
  marital_status : String
  has_children : String
  city : JVal
  permanent_address : JVal
  actual_address : JVal
  phone : JVal
  email : JVal
  working_hour : JVal
  min_salary : JVal
  max_salary : JVal
  desired_address : JVal
  skills : String
  languages : String
  experience : String
  education : String
  hobbies : String
  motivation_letter : JVal
  note : JVal
  views : JVal
  created_at : JVal
  updated_at : JVal
  resume_file : JVal
  profile_image : JVal
  user_position : JVal
  user_email : JVal
  user_phone : JVal
  category_id : JVal
  parent_category_id : JVal
  status : JVal
  is_premium : JVal
  share_count : JVal

/-- Per-record transformation of `process_cv_data` on a record known to
be a dict: the JSON sub-field parses and `cv.get` accesses are
infallible here, while accesses through `user` / `city` /
`working_hour` and the three fallible formatters can raise; the
fallible operations appear in the evaluation order of the source record
literal. -/
def extractObj (kvs : List (String × JVal)) : Except PyExc Flat := do
  let skills := parse_json_field (dictGet kvs "skills" (.str "[]"))
  let languages := parse_json_field (dictGet kvs "language" (.str "[]"))
  let experience := parse_json_field (dictGet kvs "experience" (.str "[]"))
  let education := parse_json_field (dictGet kvs "education" (.str "[]"))
  let hobbies := parse_json_field (dictGet kvs "hobby" (.str "[]"))
  let user := dictGet kvs "user" (.obj [])
  let city := dictGet kvs "city" (.obj [])
  let working_hour := dictGet kvs "working_hour" (.obj [])
  let namev ← pyGetD user "name" .null
  let surnamev ← pyGetD user "surname" .null
  let cityv ← localeName city
  let whv ← localeName working_hour
  let langS ← format_languages languages
  let expS ← format_experience experience
  let eduS ← format_education education
  let imagev ← pyGetD user "image" (.str "")
  let uposv ← pyGetD user "position" (.str "")
  let uemailv ← pyGetD user "email" (.str "")
  let uphonev ← pyGetD user "phone" (.str "")
  return {
    id := dictGet kvs "id" .null
    title := dictGet kvs "title" .null
    slug := dictGet kvs "slug" .null
    name := namev
    surname := surnamev
    birthday := dictGet kvs "birthday" .null
    gender := genderOf (dictGet kvs "gender_status" .null)
    marital_status := get_marital_status (dictGet kvs "married_status" .null)
    has_children := hasChildrenOf (dictGet kvs "is_child" .null)
    city := cityv
    permanent_address := dictGet kvs "permanent_address" .null
    actual_address := dictGet kvs "actual_address" .null
    phone := dictGet kvs "phone" .null
    email := dictGet kvs "email" .null
    working_hour := whv
    min_salary := dictGet kvs "min_salary" .null
    max_salary := dictGet kvs "max_salary" .null
    desired_address := dictGet kvs "desired_address" .null
    skills := format_list_field skills
    languages := langS
    experience := expS
    education := eduS
    hobbies := format_list_field hobbies
    motivation_letter := dictGet kvs "motivation_letter" (.str "")
    note := dictGet kvs "note" (.str "")
    views := dictGet kvs "reads" (.num 0)
    created_at := dictGet kvs "created_at" .null
    updated_at := dictGet kvs "updated_at" .null
    resume_file := dictGet kvs "resume" (.str "")
    profile_image := imagev
    user_position := uposv
    user_email := uemailv
    user_phone := uphonev
    category_id := dictGet kvs "category_id" .null
    parent_category_id := dictGet kvs "parent_category_id" .null
    status := dictGet kvs "status" .null
    is_premium := dictGet kvs "is_premium" (.num 0)
    share_count := dictGet kvs "share" (.num 0)
  }

/-- Per-record transformation of `process_cv_data` on an arbitrary
record.  In Python a non-dict record raises `AttributeError` at its
first `cv.get(...)` call, before anything else happens; hoisting the
dict test to the head is observationally the same. -/
def extract (cv : JVal) : Except PyExc Flat :=
  match cv with
  | .obj kvs => extractObj kvs
  | _ => .error .attributeError

/-- Keys of the record literal of `process_cv_data`, in source order. -/
def flatFieldNames : List String :=
  ["id", "title", "slug", "name", "surname", "birthday", "gender",
   "marital_status", "has_children", "city", "permanent_address",
   "actual_address", "phone", "email", "working_hour", "min_salary",
   "max_salary", "desired_address", "skills", "languages", "experience",
   "education", "hobbies", "motivation_letter", "note", "views",
   "created_at", "updated_at", "resume_file", "profile_image",
   "user_position", "user_email", "user_phone", "category_id",
   "parent_category_id", "status", "is_premium", "share_count"]

/-- The record literal of `process_cv_data` as an ordered key-value row
(Python dicts preserve insertion order). -/
def flatToRow (f : Flat) : List (String × JVal) :=
  [("id", f.id), ("title", f.title), ("slug", f.slug), ("name", f.name),
   ("surname", f.surname), ("birthday", f.birthday),
   ("gender", .str f.gender), ("marital_status", .str f.marital_status),
   ("has_children", .str f.has_children), ("city", f.city),
   ("permanent_address", f.permanent_address),
   ("actual_address", f.actual_address), ("phone", f.phone),
   ("email", f.email), ("working_hour", f.working_hour),
   ("min_salary", f.min_salary), ("max_salary", f.max_salary),
   ("desired_address", f.desired_address), ("skills", .str f.skills),
   ("languages", .str f.languages), ("experience", .str f.experience),
   ("education", .str f.education), ("hobbies", .str f.hobbies),
   ("motivation_letter", f.motivation_letter), ("note", f.note),
   ("views", f.views), ("created_at", f.created_at),
   ("updated_at", f.updated_at), ("resume_file", f.resume_file),
   ("profile_image", f.profile_image), ("user_position", f.user_position),
   ("user_email", f.user_email), ("user_phone", f.user_phone),
   ("category_id", f.category_id),
   ("parent_category_id", f.parent_category_id), ("status", f.status),
   ("is_premium", f.is_premium), ("share_count", f.share_count)]

/-- One iteration of the `process_cv_data` loop body, as a row. -/
def processRecord (cv : JVal) : Except PyExc (List (String × JVal)) :=
  (extract cv).map flatToRow

/-- Embedding of `process_cv_data`: each record is transformed inside a
`try`; on an exception the handler logs with `cv.get("id", "unknown")`
— an expression that itself raises when `cv` is not a dict, escaping
the handler — and otherwise the loop continues with the next record. -/
def process_cv_data : List JVal → Except PyExc (List (List (String × JVal)))
  | [] => .ok []
  | cv :: rest =>
    match processRecord cv with
    | .ok r =>
      match process_cv_data rest with
      | .ok rs => .ok (r :: rs)
      | .error e => .error e
    | .error _ =>
      match pyGetD cv "id" (.str "unknown") with
      | .error e => .error e
      | .ok _ => process_cv_data rest

/-! ## The collector `scrape_all_cvs`

The page source is an injected function from the page number to the
result of `get_page_data`: `none` models the `None` that a
`RequestException` / `JSONDecodeError` turns into, `some v` a decoded
JSON response body.  The unbounded `while True` loop is embedded with
fuel: the outer `Option` of the result is `none` exactly when the fuel
ran out before the loop stopped.  The `time.sleep(1)` courtesy delay has
no observable effect on the result and is not modelled. -/

/-- Embedding of the `while True` loop of `scrape_all_cvs`, with the
checks of one iteration in source order: `not page_data or "cv" not in
page_data`, then `not cvs` for `cvs = cv_data.get("data", [])`, then
`page >= cv_data.get("last_page", 1)` after extending the accumulator. -/
def scrapeLoop (fetch : Int → Option JVal) :
    Nat → Int → List JVal → Option (Except PyExc (List JVal))
  | 0, _, _ => none
  | fuel + 1, page, acc =>
    match fetch page with
    | none => some (.ok acc)
    | some pd =>
      if truthy pd = false then some (.ok acc)
      else
        match pyIn "cv" pd with
        | .error e => some (.error e)
        | .ok false => some (.ok acc)
        | .ok true =>
          match pyIndex pd "cv" with
          | .error e => some (.error e)
          | .ok cv_data =>
            match pyGetD cv_data "data" (.arr []) with
            | .error e => some (.error e)
            | .ok cvs =>
              if truthy cvs = false then some (.ok acc)
              else
                match pyIter cvs with
                | .error e => some (.error e)
                | .ok xs =>
                  match pyGetD cv_data "last_page" (.num 1) with
                  | .error e => some (.error e)
                  | .ok lp =>
                    match pyGEInt page lp with
                    | .error e => some (.error e)
                    | .ok true => some (.ok (acc ++ xs))
                    | .ok false => scrapeLoop fetch fuel (page + 1) (acc ++ xs)

/-- Embedding of `scrape_all_cvs`: run the loop from page 1 with an
empty accumulator. -/
def scrape_all_cvs (fetch : Int → Option JVal) (fuel : Nat) :
    Option (Except PyExc (List JVal)) :=
  scrapeLoop fetch fuel 1 []

/-! ## Spec-side model of the collector (for the refinement claim C1) -/

/-- Spec-side view of one page response, following the claim wording:
the fetch signalled failure, the response lacks the container key, or a
page with its record list and declared last-page number. -/
inductive SpecResp where
  | fail : SpecResp
  | noContainer : SpecResp
  | page (records : List JVal) (lastPage : Int) : SpecResp

/-- Abstraction of a raw fetch result to its spec-side view.  A falsy
successful response and a response without the `"cv"` key both lack the
container; the record list and last-page number are read with the
defaults of the source (`[]` and `1`). -/
def respAbs (r : Option JVal) : SpecResp :=
  match r with
  | none => .fail
  | some v =>
    if truthy v = false then .noContainer
    else
      match v with
      | .obj kvs =>
        match lookupKey kvs "cv" with
        | some (.obj ckvs) =>
          .page (match dictGet ckvs "data" (.arr []) with
                 | .arr xs => xs
                 | _ => [])
                (match dictGet ckvs "last_page" (.num 1) with
                 | .num n => n
                 | _ => 1)
        | some _ => .noContainer
        | none => .noContainer
      | _ => .noContainer

/-- Spec-side collection loop, exactly as the claim states it: per
iteration, stop on fetch failure, then on a missing container key, then
on an empty record list (returning the earlier records in these three
cases), then on current page ≥ declared last page (returning the
records including the current page); otherwise accumulate and continue
with the next page. -/
def collectLoopSpec (pages : Int → SpecResp) :
    Nat → Int → List JVal → Option (List JVal)
  | 0, _, _ => none
  | fuel + 1, page, acc =>
    match pages page with
    | .fail => some acc
    | .noContainer => some acc
    | .page records lastPage =>
      if records.isEmpty then some acc
      else if page ≥ lastPage then some (acc ++ records)
      else collectLoopSpec pages fuel (page + 1) (acc ++ records)

/-- Well-formedness of the `"data"` entry of the container: a list, or
falsy (in which case the source stops just as on an empty list). -/
def dataWF : Option JVal → Bool
  | none => true
  | some (.arr _) => true
  | some d => !truthy d

/-- Well-formedness of the `"last_page"` entry: absent or an integer. -/
def lastPageWF : Option JVal → Bool
  | none => true
  | some (.num _) => true
  | some _ => false

/-- Well-formedness of the `"cv"` container value: a dict whose data and
last-page entries are well-formed. -/
def cvWF : Option JVal → Bool
  | none => true
  | some (.obj ckvs) =>
    dataWF (lookupKey ckvs "data") && lastPageWF (lookupKey ckvs "last_page")
  | some _ => false

/-- Well-formedness of one fetch result, the shape the spec gives to a
RawPage: a failure, a falsy body, or a dict whose `"cv"` entry (if any)
is well-formed. -/
def respWF : Option JVal → Bool
  | none => true
  | some v =>
    if truthy v = false then true
    else
      match v with
      | .obj kvs => cvWF (lookupKey kvs "cv")
      | _ => false

/-- Claim C1: for every sequence of well-formed page responses,
`scrape_all_cvs` never raises and stops exactly at the first of the
four conditions — fetch failure, missing container key, empty record
list (returning the records of earlier pages in those three cases), or
current page ≥ declared last page (returning the records including the
current page) — as captured by the spec-side loop `collectLoopSpec`; in
particular a fetch failure on the very first page yields the empty
sequence. -/
theorem scrape_all_cvs_stops_in_order (fetch : Int → Option JVal)
    (hwf : ∀ p : Int, respWF (fetch p) = true) (fuel : Nat) :
    (∀ (page : Int) (acc : List JVal),
      scrapeLoop fetch fuel page acc =
        (collectLoopSpec (fun p => respAbs (fetch p)) fuel page acc).map Except.ok) ∧
    (fetch 1 = none → 0 < fuel → scrape_all_cvs fetch fuel = some (.ok [])) := by
  have main : ∀ (page : Int) (acc : List JVal),
      scrapeLoop fetch fuel page acc =
        (collectLoopSpec (fun p => respAbs (fetch p)) fuel page acc).map Except.ok := by
    induction fuel with
    | zero => intro page acc; rfl
    | succ n ih =>
      intro page acc
      have h := hwf page
      cases hf : fetch page with
      | none => simp [scrapeLoop, collectLoopSpec, respAbs, hf]
      | some v =>
        rw [hf] at h
        cases htv : truthy v with
        | false =>
          simp [scrapeLoop, collectLoopSpec, respAbs, hf, htv]
        | true =>
          cases v with
          | null => simp [truthy] at htv
          | bool b => simp [respWF, htv] at h
          | num m => simp [respWF, htv] at h
          | str s => simp [respWF, htv] at h
          | arr xs => simp [respWF, htv] at h
          | obj kvs =>
            have htv2 : kvs.isEmpty = false := by simpa [truthy] using htv
            simp [respWF, htv] at h
            cases hcv : lookupKey kvs "cv" with
            | none =>
              simp [scrapeLoop, collectLoopSpec, respAbs, hf, htv, pyIn, hcv]
            | some c =>
              rw [hcv] at h
              cases c with
              | obj ckvs =>
                simp [cvWF] at h
                obtain ⟨hdata, hlp⟩ := h
                cases hd : lookupKey ckvs "data" with
                | none =>
                  simp [scrapeLoop, collectLoopSpec, respAbs, hf, htv, pyIn,
                        pyIndex, hcv, hd, dictGet, pyGetD, truthy, htv2]
                | some d =>
                  rw [hd] at hdata
                  cases d with
                  | arr xs =>
                    cases xs with
                    | nil =>
                      simp [scrapeLoop, collectLoopSpec, respAbs, hf, htv, pyIn,
                            pyIndex, hcv, hd, dictGet, pyGetD, truthy, htv2]
                    | cons x xs2 =>
                      cases hlpv : lookupKey ckvs "last_page" with
                      | none =>
                        by_cases hge : page ≥ 1 <;>
                          simp [scrapeLoop, collectLoopSpec, respAbs, hf, htv, pyIn,
                                pyIndex, hcv, hd, hlpv, dictGet, pyGetD, truthy,
                                pyIter, pyGEInt, hge, ih, htv2]
                      | some l =>
                        rw [hlpv] at hlp
                        cases l with
                        | num m =>
                          by_cases hge : page ≥ m <;>
                            simp [scrapeLoop, collectLoopSpec, respAbs, hf, htv, pyIn,
                                  pyIndex, hcv, hd, hlpv, dictGet, pyGetD, truthy,
                                  pyIter, pyGEInt, hge, ih, htv2]
                        | null => simp [lastPageWF] at hlp
                        | bool b => simp [lastPageWF] at hlp
                        | str s => simp [lastPageWF] at hlp
                        | arr ys => simp [lastPageWF] at hlp
                        | obj os => simp [lastPageWF] at hlp
                  | null =>
                    simp [scrapeLoop, collectLoopSpec, respAbs, hf, htv, pyIn,
                          pyIndex, hcv, hd, dictGet, pyGetD, truthy, htv2]
                  | bool b =>
                    cases b with
                    | false =>
                      simp [scrapeLoop, collectLoopSpec, respAbs, hf, htv, pyIn,
                            pyIndex, hcv, hd, dictGet, pyGetD, truthy, htv2]
                    | true => simp [dataWF, truthy] at hdata
                  | num m =>
                    rcases hm : decide (m = 0) with _ | _
                    · have hm2 : ¬ m = 0 := of_decide_eq_false hm
                      simp [dataWF, truthy, hm2] at hdata
                    · have hm2 : m = 0 := of_decide_eq_true hm
                      subst hm2
                      simp [scrapeLoop, collectLoopSpec, respAbs, hf, htv, pyIn,
                            pyIndex, hcv, hd, dictGet, pyGetD, truthy, htv2]
                  | str s =>
                    rcases hs : decide (s = "") with _ | _
                    · have hs2 : ¬ s = "" := of_decide_eq_false hs
                      simp [dataWF, truthy, hs2] at hdata
                    · have hs2 : s = "" := of_decide_eq_true hs
                      subst hs2
                      simp [scrapeLoop, collectLoopSpec, respAbs, hf, htv, pyIn,
                            pyIndex, hcv, hd, dictGet, pyGetD, truthy, htv2]
                  | obj os =>
                    cases os with
                    | nil =>
                      simp [scrapeLoop, collectLoopSpec, respAbs, hf, htv, pyIn,
                            pyIndex, hcv, hd, dictGet, pyGetD, truthy, htv2]
                    | cons kv os2 => simp [dataWF, truthy] at hdata
              | null => simp [cvWF] at h
              | bool b => simp [cvWF] at h
              | num m => simp [cvWF] at h
              | str s => simp [cvWF] at h
              | arr ys => simp [cvWF] at h
  refine ⟨main, ?_⟩
  intro h1 hfuel
  cases fuel with
  | zero => exact absurd hfuel (by simp)
  | succ n =>
    simp [scrape_all_cvs, scrapeLoop, h1]

/-! ## Helper lemmas and predicates -/

/-- Test for a dict value. -/
def isDict : JVal → Bool
  | .obj _ => true
  | _ => false

theorem str_append_ne_empty (a b : String) (hb : b ≠ "") : a ++ b ≠ "" := by
  intro h
  apply hb
  have hd := congrArg String.data h
  rw [String.data_append] at hd
  exact String.ext (List.append_eq_nil.mp hd).2

theorem except_bind_ok_elim {α β : Type} {P : β → Prop} (x : Except PyExc α)
    (f : α → Except PyExc β)
    (h : ∀ a, match f a with | .ok b => P b | .error _ => True) :
    (match x >>= f with | .ok b => P b | .error _ => True) := by
  cases x with
  | error e => exact trivial
  | ok a => exact h a

theorem except_bind_isOk_false {α β : Type} (x : Except PyExc α)
    (f : α → Except PyExc β) (h : ∀ a, (f a).isOk = false) :
    (x >>= f).isOk = false := by
  cases x with
  | error e => rfl
  | ok a => exact h a

/-- Splicing out one failing dict record does not change the output of
`process_cv_data`: the record is skipped and processing continues. -/
theorem process_cv_data_splice (xs ys : List JVal) (bad : JVal)
    (hbad : isDict bad = true) (hfail : (processRecord bad).isOk = false) :
    process_cv_data (xs ++ bad :: ys) = process_cv_data (xs ++ ys) := by
  induction xs with
  | nil =>
    simp only [List.nil_append]
    cases hb : processRecord bad with
    | ok r => rw [hb] at hfail; exact Bool.noConfusion hfail
    | error e =>
      cases bad with
      | obj kvs => simp [process_cv_data, hb, pyGetD]
      | null => simp [isDict] at hbad
      | bool b => simp [isDict] at hbad
      | num n => simp [isDict] at hbad
      | str s => simp [isDict] at hbad
      | arr zs => simp [isDict] at hbad
  | cons x xs2 ih =>
    simp only [List.cons_append]
    cases hx : processRecord x with
    | ok r => simp [process_cv_data, hx, ih]
    | error e => simp [process_cv_data, hx, ih]

/-- Witness for C1: a fetch that fails on the very first page collects
the empty sequence without raising. -/
theorem scrape_all_cvs_stops_in_order_witness :
    scrape_all_cvs (fun _ => none) 3 = some (.ok []) :=
  (scrape_all_cvs_stops_in_order (fun _ => none) (fun _ => rfl) 3).2 rfl (by decide)

/-- Counterexample to claim C2 as stated: for the non-mapping record 5
the transformation raises, and the except handler of `process_cv_data`
itself raises `AttributeError` inside `cv.get("id", "unknown")`, so the
exception propagates out of the normalizer instead of the record being
skipped. -/
theorem process_cv_data_nonmapping_raises :
    process_cv_data [.num 5] = .error .attributeError := rfl

/-- Claim C2 amended: on sequences of mapping (dict) records,
`process_cv_data` never raises, preserves order, outputs exactly the
successfully transformed records in input order, and a mapping record
whose transformation raises is omitted while processing continues with
the next record; for a non-mapping record the error report itself can
raise (see the counterexample). -/
theorem process_cv_data_skips (cvs xs ys : List JVal) (bad : JVal)
    (hcvs : cvs.all isDict = true) (hbad : isDict bad = true)
    (hfail : (processRecord bad).isOk = false) :
    process_cv_data cvs =
      .ok (cvs.filterMap fun cv => (processRecord cv).toOption) ∧
    process_cv_data (xs ++ bad :: ys) = process_cv_data (xs ++ ys) := by
  refine ⟨?_, process_cv_data_splice xs ys bad hbad hfail⟩
  induction cvs with
  | nil => rfl
  | cons cv rest ih =>
    rw [List.all_cons, Bool.and_eq_true] at hcvs
    cases hx : processRecord cv with
    | ok r =>
      simp [process_cv_data, hx, ih hcvs.2, Except.toOption]
    | error e =>
      cases cv with
      | obj kvs =>
        simp [process_cv_data, hx, pyGetD, ih hcvs.2, Except.toOption]
      | null => simp [isDict] at hcvs
      | bool b => simp [isDict] at hcvs
      | num n => simp [isDict] at hcvs
      | str s => simp [isDict] at hcvs
      | arr zs => simp [isDict] at hcvs

/-- Witness for the amended C2 at concrete records: the record whose
`user` key is bound to None raises during transformation and is
skipped, and processing continues. -/
theorem process_cv_data_skips_witness :
    process_cv_data [JVal.obj [], JVal.obj [("user", JVal.null)]] =
      .ok ([JVal.obj [], JVal.obj [("user", JVal.null)]].filterMap fun cv =>
        (processRecord cv).toOption) ∧
    process_cv_data ([JVal.obj []] ++ JVal.obj [("user", JVal.null)] :: [JVal.obj []]) =
      process_cv_data ([JVal.obj []] ++ [JVal.obj []]) :=
  process_cv_data_skips [JVal.obj [], JVal.obj [("user", JVal.null)]]
    [JVal.obj []] [JVal.obj []] (JVal.obj [("user", JVal.null)]) rfl rfl rfl

/-- Counterexample to claim C3 as stated: the well-formed JSON string
"5" is accepted by `parse_json_field`, which returns the integer 5 —
not a list. -/
theorem parse_json_field_not_always_list :
    parse_json_field (.str "5") = .num 5 ∧
    (match parse_json_field (.str "5") with
     | .arr _ => False
     | _ => True) :=
  ⟨rfl, trivial⟩

/-- Claim C3 amended: `parse_json_field` never raises; it returns the
empty list for every falsy value, for the literal string "[]", for
every non-string value, and for every string the JSON decoder rejects;
any other string returns the decoded JSON value, which is a list
exactly when the document is an array. -/
theorem parse_json_field_amended (s : String) (hs1 : s ≠ "") (hs2 : s ≠ "[]") :
    (∀ v : JVal, truthy v = false → parse_json_field v = .arr []) ∧
    parse_json_field (.str "[]") = .arr [] ∧
    (∀ n : Int, parse_json_field (.num n) = .arr []) ∧
    (∀ b : Bool, parse_json_field (.bool b) = .arr []) ∧
    (∀ xs : List JVal, parse_json_field (.arr xs) = .arr []) ∧
    (∀ kvs : List (String × JVal), parse_json_field (.obj kvs) = .arr []) ∧
    parse_json_field (.str s) =
      (match loads s with
       | .ok j => j
       | .error _ => .arr []) := by
  refine ⟨?_, rfl, ?_, ?_, ?_, ?_, ?_⟩
  · intro v hv
    simp [parse_json_field, hv]
  · intro n
    by_cases hn : n = 0 <;>
      simp [parse_json_field, truthy, pyEq, hn]
  · intro b
    cases b <;> simp [parse_json_field, truthy, pyEq]
  · intro xs
    cases xs <;> simp [parse_json_field, truthy, pyEq, pyEqL]
  · intro kvs
    cases kvs <;> simp [parse_json_field, truthy, pyEq, pyEqO]
  · simp [parse_json_field, truthy, pyEq, hs1, hs2]

/-- Witness for the amended C3 at a malformed input string. -/
theorem parse_json_field_amended_witness :
    parse_json_field (.str "\x7bbad") =
      (match loads "\x7bbad" with
       | .ok j => j
       | .error _ => .arr []) :=
  (parse_json_field_amended "\x7bbad" (by decide) (by decide)).2.2.2.2.2.2

/-- Claim C4: parsing a JSON-encoded sub-field and then formatting it
yields the empty string, for each of the four formatters, on the inputs
"[]" and "null" and on every string the JSON decoder rejects. -/
theorem subfield_roundtrip_empty (s : String)
    (hbad : (loads s).isOk = false) :
    (format_list_field (parse_json_field (.str s)) = "" ∧
     format_languages (parse_json_field (.str s)) = .ok "" ∧
     format_experience (parse_json_field (.str s)) = .ok "" ∧
     format_education (parse_json_field (.str s)) = .ok "") ∧
    (format_list_field (parse_json_field (.str "[]")) = "" ∧
     format_languages (parse_json_field (.str "[]")) = .ok "" ∧
     format_experience (parse_json_field (.str "[]")) = .ok "" ∧
     format_education (parse_json_field (.str "[]")) = .ok "") ∧
    (format_list_field (parse_json_field (.str "null")) = "" ∧
     format_languages (parse_json_field (.str "null")) = .ok "" ∧
     format_experience (parse_json_field (.str "null")) = .ok "" ∧
     format_education (parse_json_field (.str "null")) = .ok "") := by
  have key : parse_json_field (.str s) = .arr [] := by
    by_cases h1 : s = ""
    · subst h1; rfl
    · by_cases h2 : s = "[]"
      · subst h2; rfl
      · simp only [parse_json_field, truthy, pyEq]
        cases hl : loads s with
        | ok j => rw [hl] at hbad; exact Bool.noConfusion hbad
        | error e => simp [h1, h2]
  rw [key]
  exact ⟨⟨rfl, rfl, rfl, rfl⟩, ⟨rfl, rfl, rfl, rfl⟩, ⟨rfl, rfl, rfl, rfl⟩⟩

/-- Witness for C4 at a concrete malformed sub-field string. -/
theorem subfield_roundtrip_empty_witness :
    format_list_field (parse_json_field (.str "\x7b")) = "" :=
  (subfield_roundtrip_empty "\x7b" rfl).1.1

/-- Under a successful result, every value of the computation satisfies
the predicate. -/
def okImplies {α : Type} (x : Except PyExc α) (P : α → Prop) : Prop :=
  ∀ a, x = .ok a → P a

theorem okImplies_bind {α β : Type} {P : β → Prop} (x : Except PyExc α)
    (f : α → Except PyExc β) (h : ∀ a, okImplies (f a) P) :
    okImplies (x >>= f) P := by
  cases x with
  | error e => intro b hb; exact Except.noConfusion hb
  | ok a => exact h a

theorem okImplies_pure {α : Type} {P : α → Prop} (b : α) (hp : P b) :
    okImplies (pure b : Except PyExc α) P := by
  intro a ha
  cases ha
  exact hp

/-- Counterexample to claim C5 as stated: on a record without the `id`
key the flattened `id` field defaults to None (null), not to the empty
string. -/
theorem passthrough_default_not_empty :
    (extract (.obj [])).map Flat.id = .ok JVal.null ∧
    (JVal.null = JVal.str "" → False) :=
  ⟨rfl, fun h => JVal.noConfusion h⟩

/-- Claim C5 amended: the pass-through fields are copied verbatim from
the record when present; when absent, the counters and flags (views,
is_premium, share_count) default to the integer 0 and the resume URL to
the empty string, while the other pass-through fields (id, title, slug,
birthday, addresses, phone, email, salary bounds, category ids, status)
default to None — not to the empty string. -/
theorem passthrough_fields (kvs : List (String × JVal)) (f : Flat)
    (hf : extract (.obj kvs) = .ok f) :
    f.id = dictGet kvs "id" .null ∧
    f.title = dictGet kvs "title" .null ∧
    f.slug = dictGet kvs "slug" .null ∧
    f.birthday = dictGet kvs "birthday" .null ∧
    f.permanent_address = dictGet kvs "permanent_address" .null ∧
    f.actual_address = dictGet kvs "actual_address" .null ∧
    f.desired_address = dictGet kvs "desired_address" .null ∧
    f.phone = dictGet kvs "phone" .null ∧
    f.email = dictGet kvs "email" .null ∧
    f.min_salary = dictGet kvs "min_salary" .null ∧
    f.max_salary = dictGet kvs "max_salary" .null ∧
    f.resume_file = dictGet kvs "resume" (.str "") ∧
    f.category_id = dictGet kvs "category_id" .null ∧
    f.parent_category_id = dictGet kvs "parent_category_id" .null ∧
    f.status = dictGet kvs "status" .null ∧
    f.views = dictGet kvs "reads" (.num 0) ∧
    f.is_premium = dictGet kvs "is_premium" (.num 0) ∧
    f.share_count = dictGet kvs "share" (.num 0) := by
  have h : okImplies (extract (.obj kvs)) (fun g =>
      g.id = dictGet kvs "id" .null ∧
      g.title = dictGet kvs "title" .null ∧
      g.slug = dictGet kvs "slug" .null ∧
      g.birthday = dictGet kvs "birthday" .null ∧
      g.permanent_address = dictGet kvs "permanent_address" .null ∧
      g.actual_address = dictGet kvs "actual_address" .null ∧
      g.desired_address = dictGet kvs "desired_address" .null ∧
      g.phone = dictGet kvs "phone" .null ∧
      g.email = dictGet kvs "email" .null ∧
      g.min_salary = dictGet kvs "min_salary" .null ∧
      g.max_salary = dictGet kvs "max_salary" .null ∧
      g.resume_file = dictGet kvs "resume" (.str "") ∧
      g.category_id = dictGet kvs "category_id" .null ∧
      g.parent_category_id = dictGet kvs "parent_category_id" .null ∧
      g.status = dictGet kvs "status" .null ∧
      g.views = dictGet kvs "reads" (.num 0) ∧
      g.is_premium = dictGet kvs "is_premium" (.num 0) ∧
      g.share_count = dictGet kvs "share" (.num 0)) := by
    set_option maxRecDepth 4000 in
    simp only [extract, extractObj]
    iterate 11 (apply okImplies_bind; intro _)
    exact okImplies_pure _ ⟨rfl, rfl, rfl, rfl, rfl, rfl, rfl, rfl, rfl, rfl,
      rfl, rfl, rfl, rfl, rfl, rfl, rfl, rfl⟩
  exact h f hf

/-- The flattened record of the C5 witness input: an id of 7 and every
other field at its default. -/
def flatW : Flat where
  id := .num 7
  title := .null
  slug := .null
  name := .null
  surname := .null
  birthday := .null
  gender := "Unknown"
  marital_status := "Unknown"
  has_children := "Unknown"
  city := .str ""
  permanent_address := .null
  actual_address := .null
  phone := .null
  email := .null
  working_hour := .str ""
  min_salary := .null
  max_salary := .null
  desired_address := .null
  skills := ""
  languages := ""
  experience := ""
  education := ""
  hobbies := ""
  motivation_letter := .str ""
  note := .str ""
  views := .num 0
  created_at := .null
  updated_at := .null
  resume_file := .str ""
  profile_image := .str ""
  user_position := .str ""
  user_email := .str ""
  user_phone := .str ""
  category_id := .null
  parent_category_id := .null
  status := .null
  is_premium := .num 0
  share_count := .num 0

/-- Witness for the amended C5: a record holding only an id has the id
copied verbatim. -/
theorem passthrough_fields_witness :
    flatW.id = dictGet [("id", JVal.num 7)] "id" JVal.null :=
  (passthrough_fields [("id", JVal.num 7)] flatW rfl).1

/-- Keys of one produced row always form the fixed schema. -/
theorem processRecord_keys (cv : JVal) :
    (match processRecord cv with
     | .ok r => r.map Prod.fst == flatFieldNames
     | .error _ => true) = true := by
  unfold processRecord
  cases extract cv with
  | error e => rfl
  | ok f => rfl

/-- Claim C8: every flattened row produced by the normalizer has
exactly the fixed, ordered field-name list `flatFieldNames`, regardless
of which optional sub-fields the source record had; hence any two rows
of one run agree in field set and field order. -/
theorem flat_record_schema (cvs : List JVal) :
    (match process_cv_data cvs with
     | .ok rows => rows.all fun r => r.map Prod.fst == flatFieldNames
     | .error _ => true) = true := by
  induction cvs with
  | nil => rfl
  | cons cv rest ih =>
    have hk := processRecord_keys cv
    cases hx : processRecord cv with
    | ok r =>
      rw [hx] at hk
      cases hrest : process_cv_data rest with
      | ok rows =>
        rw [hrest] at ih
        simp at hk ih
        simp [process_cv_data, hx, hrest, List.all_cons, hk]
        exact ih
      | error e => simp [process_cv_data, hx, hrest]
    | error e =>
      cases hid : pyGetD cv "id" (.str "unknown") with
      | error e2 => simp [process_cv_data, hx, hid]
      | ok w => simp [process_cv_data, hx, hid, ih]

/-- Claim C6: gender code 1 maps to Male, 2 to Female, any other
integer to Unknown; marital-status codes 1, 2, 3 map to their fixed
labels and any other integer to Unknown; has-children code 1 maps to
Yes, 2 to No, any other integer to Unknown; and the scenario record
with gender 2, marital 3, child 1 normalizes accordingly. -/
theorem enum_decoding (n m c : Int) (hn1 : n ≠ 1) (hn2 : n ≠ 2)
    (hm1 : m ≠ 1) (hm2 : m ≠ 2) (hm3 : m ≠ 3) (hc1 : c ≠ 1) (hc2 : c ≠ 2) :
    genderOf (.num 1) = "Male" ∧ genderOf (.num 2) = "Female" ∧
    genderOf (.num n) = "Unknown" ∧
    get_marital_status (.num 1) = "Single" ∧
    get_marital_status (.num 2) = "Married - No children" ∧
    get_marital_status (.num 3) = "Married - Has children" ∧
    get_marital_status (.num m) = "Unknown" ∧
    hasChildrenOf (.num 1) = "Yes" ∧ hasChildrenOf (.num 2) = "No" ∧
    hasChildrenOf (.num c) = "Unknown" ∧
    (extract (.obj [("gender_status", .num 2), ("married_status", .num 3),
                    ("is_child", .num 1)])).map
        (fun f => (f.gender, f.marital_status, f.has_children)) =
      .ok ("Female", "Married - Has children", "Yes") := by
  refine ⟨rfl, rfl, ?_, rfl, rfl, rfl, ?_, rfl, rfl, ?_, rfl⟩
  · simp [genderOf, pyEq, hn1, hn2]
  · simp [get_marital_status, pyEq, hm1, hm2, hm3]
  · simp [hasChildrenOf, pyEq, hc1, hc2]

/-- Witness for C6 at concrete out-of-range codes. -/
theorem enum_decoding_witness :
    genderOf (.num 7) = "Unknown" ∧ get_marital_status (.num 9) = "Unknown" ∧
    hasChildrenOf (.num 5) = "Unknown" :=
  ⟨(enum_decoding 7 9 5 (by decide) (by decide) (by decide) (by decide)
      (by decide) (by decide) (by decide)).2.2.1,
   (enum_decoding 7 9 5 (by decide) (by decide) (by decide) (by decide)
      (by decide) (by decide) (by decide)).2.2.2.2.2.2.1,
   (enum_decoding 7 9 5 (by decide) (by decide) (by decide) (by decide)
      (by decide) (by decide) (by decide)).2.2.2.2.2.2.2.2.2.1⟩

/-- Claim C10: enum codes are compared without coercion, so
string-valued codes always decode to Unknown. -/
theorem enum_string_codes_unknown (s : String) :
    genderOf (.str s) = "Unknown" ∧
    get_marital_status (.str s) = "Unknown" ∧
    hasChildrenOf (.str s) = "Unknown" ∧
    (extract (.obj [("gender_status", .str "1"), ("married_status", .str "2"),
                    ("is_child", .str "1")])).map
        (fun f => (f.gender, f.marital_status, f.has_children)) =
      .ok ("Unknown", "Unknown", "Unknown") := by
  refine ⟨?_, ?_, ?_, rfl⟩ <;> rfl

theorem pyGetD_null (k : String) (d : JVal) :
    pyGetD .null k d = .error .attributeError := rfl

theorem localeName_null : localeName .null = .error .attributeError := rfl

theorem except_error_bind {α β : Type} (e : PyExc) (f : α → Except PyExc β) :
    ((Except.error e : Except PyExc α) >>= f) = .error e := rfl

theorem except_isOk_error {α : Type} (e : PyExc) :
    (Except.error e : Except PyExc α).isOk = false := rfl

theorem except_map_isOk {α β : Type} (x : Except PyExc α) (g : α → β) :
    (x.map g).isOk = x.isOk := by
  cases x <;> rfl

/-- Claim C9: when the key `user`, `city`, or `working_hour` is present
but bound to None, the record transformation raises during field
extraction and the record is omitted from the normalizer output while
processing continues; the empty-dict default applies only to an absent
key, in which case extraction of an otherwise-empty record succeeds. -/
theorem null_nested_mapping_raises (kvs : List (String × JVal))
    (xs ys : List JVal)
    (h : lookupKey kvs "user" = some .null ∨
         lookupKey kvs "city" = some .null ∨
         lookupKey kvs "working_hour" = some .null) :
    (extract (.obj kvs)).isOk = false ∧
    process_cv_data (xs ++ JVal.obj kvs :: ys) = process_cv_data (xs ++ ys) ∧
    (extract (.obj [])).isOk = true := by
  have hfail : (extract (.obj kvs)).isOk = false := by
    rcases h with h | h | h
    · simp [extract, extractObj, dictGet, h, pyGetD_null, except_error_bind,
            except_isOk_error]
    · simp only [extract, extractObj]
      apply except_bind_isOk_false
      intro namev
      apply except_bind_isOk_false
      intro surnamev
      simp [dictGet, h, localeName_null, except_error_bind, except_isOk_error]
    · simp only [extract, extractObj]
      apply except_bind_isOk_false
      intro namev
      apply except_bind_isOk_false
      intro surnamev
      apply except_bind_isOk_false
      intro cityv
      simp [dictGet, h, localeName_null, except_error_bind, except_isOk_error]
  refine ⟨hfail, ?_, rfl⟩
  apply process_cv_data_splice xs ys (.obj kvs) rfl
  rw [processRecord.eq_def, except_map_isOk]
  exact hfail

/-- Witness for C9: the record binding `city` to None fails extraction
and is spliced out. -/
theorem null_nested_mapping_raises_witness :
    (extract (.obj [("city", JVal.null)])).isOk = false ∧
    process_cv_data ([] ++ JVal.obj [("city", JVal.null)] :: []) =
      process_cv_data ([] ++ []) ∧
    (extract (.obj [])).isOk = true :=
  null_nested_mapping_raises [("city", JVal.null)] [] [] (Or.inr (Or.inl rfl))

theorem except_ok_bind {α β : Type} (a : α) (f : α → Except PyExc β) :
    ((Except.ok a : Except PyExc α) >>= f) = f a := rfl

/-- An experience entry with the five string-valued fields claim C7
speaks about; to the source an absent field and its empty-string
default are indistinguishable. -/
def mkExpEntry (c p sd ed cw : String) : JVal :=
  .obj [("company", .str c), ("position", .str p),
        ("skill_start_date", .str sd), ("skill_end_date", .str ed),
        ("currentlyWorked", .str cw)]

/-- Rendering of one experience entry as claim C7 words it: "position
at company" when both are present, else whichever is present; a present
start date appends " (start - Present)" when the currently-working flag
equals "1" or the end date is absent, else " (start - end)". -/
def renderExpEntrySpec (c p sd ed cw : String) : String :=
  let base := if c ≠ "" ∧ p ≠ "" then p ++ " at " ++ c
              else if c ≠ "" then c else p
  if sd ≠ "" then
    if cw = "1" ∨ ed = "" then base ++ (" (" ++ sd ++ " - Present)")
    else base ++ (" (" ++ sd ++ " - " ++ ed ++ ")")
  else base

theorem format_experience_entry_renders (c p sd ed cw : String) :
    format_experience_entry (mkExpEntry c p sd ed cw) =
      .ok (if renderExpEntrySpec c p sd ed cw = "" then none
           else some (.str (renderExpEntrySpec c p sd ed cw))) := by
  by_cases hc : c = "" <;> by_cases hp : p = "" <;> by_cases hsd : sd = "" <;>
    by_cases hed : ed = "" <;> by_cases hcw : cw = "1" <;>
      simp [format_experience_entry, mkExpEntry, renderExpEntrySpec, dictGet,
            lookupKey, pyStr, pyEq, pyAddStr, truthy, hc, hp, hsd, hed, hcw,
            str_append_ne_empty]

theorem pyJoin_strs (sep : String) (rs : List String) :
    pyJoin sep (rs.map JVal.str) = .ok (String.intercalate sep rs) := by
  unfold pyJoin
  have h1 : ((rs.map JVal.str).all fun v =>
      match v with | .str _ => true | _ => false) = true := by
    induction rs with
    | nil => rfl
    | cons r rs2 ih => simp only [List.map_cons, List.all_cons, Bool.true_and]; exact ih
  rw [if_pos h1]
  congr 1
  rw [List.map_map]
  have h2 : (pyStr ∘ JVal.str) = id := funext fun s => rfl
  rw [h2, List.map_id]

theorem exp_formatLoop (ts : List (String × String × String × String × String))
    (acc : List JVal) :
    formatLoop format_experience_entry
      (ts.map fun t => mkExpEntry t.1 t.2.1 t.2.2.1 t.2.2.2.1 t.2.2.2.2) acc =
      .ok (acc ++
        ((ts.map fun t =>
            renderExpEntrySpec t.1 t.2.1 t.2.2.1 t.2.2.2.1 t.2.2.2.2).filter
          (fun r => r ≠ "")).map JVal.str) := by
  induction ts generalizing acc with
  | nil => simp [formatLoop]
  | cons t ts2 ih =>
    simp only [List.map_cons, formatLoop, format_experience_entry_renders,
      List.filter_cons]
    by_cases hr : renderExpEntrySpec t.1 t.2.1 t.2.2.1 t.2.2.2.1 t.2.2.2.2 = ""
    · simp [hr, ih]
    · simp [hr, ih]

/-- Claim C7: for every list of experience entries, each entry renders
as "position at company" when both are present, else whichever of the
two is present; a present start date appends " (start - Present)" when
the currently-working flag equals "1" or the end date is absent, else
" (start - end)"; entries without a start date get no date suffix; the
non-empty renderings are joined by " | "; and the scenario entry for
Acme renders as "Dev at Acme (2020 - Present)". -/
theorem format_experience_renders
    (ts : List (String × String × String × String × String)) :
    format_experience (.arr (ts.map fun t =>
        mkExpEntry t.1 t.2.1 t.2.2.1 t.2.2.2.1 t.2.2.2.2)) =
      .ok (String.intercalate " | "
        ((ts.map fun t =>
            renderExpEntrySpec t.1 t.2.1 t.2.2.1 t.2.2.2.1 t.2.2.2.2).filter
          fun r => r ≠ "")) ∧
    format_experience (.arr [.obj [("company", .str "Acme"),
        ("position", .str "Dev"), ("skill_start_date", .str "2020"),
        ("currentlyWorked", .str "1")]]) =
      .ok "Dev at Acme (2020 - Present)" := by
  constructor
  · cases ts with
    | nil => rfl
    | cons t ts2 =>
      unfold format_experience
      rw [if_neg (by simp [truthy])]
      simp only [pyIter, except_ok_bind]
      rw [exp_formatLoop (t :: ts2) []]
      simp only [except_ok_bind, List.nil_append]
      exact pyJoin_strs " | " _
  · rfl
